import Mathlib

/-!
Shallow embedding of the YTSummarize pipeline (src/webServer.js and the two
CLI transcript scripts) together with theorems about the claims made in the
natural-language specification of the repository.

JavaScript strings are modelled as `List Char`; absent (`undefined`/`null`)
values are modelled with `Option`, and JS string truthiness (the empty string
is falsy) is made explicit wherever the source relies on it.
-/

namespace YTSummarize

/-! ### Generic string machinery (regex-free JS semantics)

`replaceAllF` models `String.prototype.replace` with a global literal
pattern: the scan is left-to-right, matches are non-overlapping, and the
replacement text is never rescanned.  The fuel argument (instantiated with
the length of the string) only forces structural recursion; every step
consumes at least one character, so the fuel is never exhausted. -/

def replaceAllF (pat rep : List Char) : Nat → List Char → List Char
  | _, [] => []
  | 0, s => s
  | fuel + 1, c :: rest =>
    if pat.isPrefixOf (c :: rest) then
      rep ++ replaceAllF pat rep fuel ((c :: rest).drop pat.length)
    else
      c :: replaceAllF pat rep fuel rest

/-- Global replacement of a non-empty literal pattern, as in
`str.replace(/pat/g, rep)` for a literal `pat`. -/
def replaceAll (pat rep s : List Char) : List Char :=
  if pat.isEmpty then s else replaceAllF pat rep s.length s

/-- First-occurrence replacement of a literal pattern, as in
`str.replace('pat', rep)` (JS `replace` with a string argument replaces only
the first occurrence). -/
def replaceFirst (pat rep : List Char) : List Char → List Char
  | [] => []
  | c :: rest =>
    if !pat.isEmpty && pat.isPrefixOf (c :: rest) then
      rep ++ (c :: rest).drop pat.length
    else
      c :: replaceFirst pat rep rest

/-- Substring containment, the semantics of `/lit/.test(s)` for a literal
regular expression (after unescaping). -/
def containsStr (pat : List Char) : List Char → Bool
  | [] => pat.isEmpty
  | c :: rest => pat.isPrefixOf (c :: rest) || containsStr pat rest

/-! ### Video Resolver (webServer.js, `isTwitterUrl` / `extractTweetId`)

```js
function isTwitterUrl(url) {
  return /twitter\.com|x\.com/.test(url) && /status\/\d+/.test(url);
}
function extractTweetId(url) {
  const match = url.match(/status\/(\d+)/);
  return match ? match[1] : null;
}
```

`url.match(/status\/(\d+)/)` finds the leftmost position where the literal
`status/` is followed by at least one decimal digit and captures the maximal
digit run there; `extractTweetId` scans positions left to right with
`matchStatus` attempting that match at the head. -/

def statusLit : List Char := "status/".data

/-- Attempt the regex `status\/(\d+)` anchored at the start of `s`: on
success, the captured (greedy, maximal) digit run. -/
def matchStatus (s : List Char) : Option (List Char) :=
  if statusLit.isPrefixOf s then
    match (s.drop statusLit.length).takeWhile Char.isDigit with
    | [] => none
    | d :: ds => some (d :: ds)
  else none

/-- Leftmost-match semantics of `url.match(/status\/(\d+)/)`, returning the
first capture group. -/
def extractTweetId : List Char → Option (List Char)
  | [] => none
  | c :: rest =>
    match matchStatus (c :: rest) with
    | some ds => some ds
    | none => extractTweetId rest

/-- `isTwitterUrl` from webServer.js.  The second regex test
`/status\/\d+/.test(url)` succeeds exactly when `extractTweetId` finds a
match, since both use the same pattern. -/
def isTwitterUrl (url : List Char) : Bool :=
  (containsStr "twitter.com".data url || containsStr "x.com".data url)
    && (extractTweetId url).isSome

/-! ### Content Extractor, XML caption fallback (webServer.js, `fetchTranscript`)

```js
const captionText = captionResponse.data
  .replace(/<[^>]*>/g, ' ')  // Remove XML tags
  .replace(/&#39;/g, "'")
  .replace(/&quot;/g, '"')
  .replace(/&amp;/g, '&')
  .replace(/&lt;/g, '<')
  .replace(/&gt;/g, '>')
  .replace(/\s+/g, ' ')
  .trim();
```
-/

/-- The character class of the JS regex `\s` (ECMAScript WhiteSpace plus
LineTerminator), also used by `String.prototype.trim`. -/
def isJsSpace (c : Char) : Bool :=
  c = ' ' || c = '\t' || c = '\n' || c = '\r' || c = '\x0B' || c = '\x0C' ||
  c = '\u00A0' || c = '\u1680' || ('\u2000' ≤ c && c ≤ '\u200A') ||
  c = '\u2028' || c = '\u2029' || c = '\u202F' || c = '\u205F' ||
  c = '\u3000' || c = '\uFEFF'

/-- After a literal `<`, consume `[^>]*>`: the remainder after the first `>`
if one exists, `none` otherwise (in which case the regex does not match at
that `<`). -/
def dropTag : List Char → Option (List Char)
  | [] => none
  | c :: rest => if c = '>' then some rest else dropTag rest

/-- `replace(/<[^>]*>/g, ' ')`: each maximal `<...>` group becomes a single
space; a `<` with no later `>` is kept.  Fuel as in `replaceAllF`. -/
def stripTagsF : Nat → List Char → List Char
  | _, [] => []
  | 0, s => s
  | fuel + 1, c :: rest =>
    if c = '<' then
      match dropTag rest with
      | some rest2 => ' ' :: stripTagsF fuel rest2
      | none => c :: stripTagsF fuel rest
    else c :: stripTagsF fuel rest

def stripTags (s : List Char) : List Char := stripTagsF s.length s

/-- `replace(/\s+/g, ' ')`: every maximal run of JS whitespace becomes a
single space. -/
def collapseWsF : Nat → List Char → List Char
  | _, [] => []
  | 0, s => s
  | fuel + 1, c :: rest =>
    if isJsSpace c then ' ' :: collapseWsF fuel (rest.dropWhile isJsSpace)
    else c :: collapseWsF fuel rest

def collapseWs (s : List Char) : List Char := collapseWsF s.length s

/-- `String.prototype.trim`: strip JS whitespace from both ends. -/
def trimStr (s : List Char) : List Char :=
  ((s.dropWhile isJsSpace).reverse.dropWhile isJsSpace).reverse

/-- The apostrophe character `Char.ofNat 39` and the double quote `Char.ofNat 34`. -/
def aposChar : Char := Char.ofNat 39

def quotChar : Char := Char.ofNat 34

/-- The literal entity `&#39;`. -/
def ent39 : List Char := "&#39".data ++ [Char.ofNat 59]

/-- The XML caption fallback decoder of `fetchTranscript`: strip tags (each
tag becomes one space), unescape `&#39; &quot; &amp; &lt; &gt;` in exactly
that order, collapse whitespace runs to one space, trim. -/
def captionDecode (s : List Char) : List Char :=
  trimStr (collapseWs
    (replaceAll ("&gt;".data) (">".data)
    (replaceAll ("&lt;".data) ("<".data)
    (replaceAll ("&amp;".data) ("&".data)
    (replaceAll ("&quot;".data) ([quotChar])
    (replaceAll ent39 ([aposChar])
    (stripTags s)))))))

/-! ### Twitter media selection (webServer.js, `processTwitterVideo`)

```js
let videoUrl = null;
if (tweet.media?.videos && tweet.media.videos.length > 0) {
  const video = tweet.media.videos[0];
  videoUrl = video.url || (video.variants && video.variants[video.variants.length - 1]?.url);
} else if (tweet.media?.all && tweet.media.all.length > 0) {
  for (const media of tweet.media.all) {
    if (media.type === 'video' && media.url) { videoUrl = media.url; break; }
  }
}
if (!videoUrl) { throw new Error('No video found in this tweet. ...'); }
```
-/

structure TwVariant where
  url : Option String
  deriving DecidableEq, Repr

structure TwVideo where
  url : Option String
  variants : Option (List TwVariant)
  deriving DecidableEq, Repr

structure TwMediaItem where
  type : String
  url : Option String
  deriving DecidableEq, Repr

structure TwMedia where
  videos : Option (List TwVideo)
  all : Option (List TwMediaItem)
  deriving DecidableEq, Repr

/-- JS truthiness of a possibly-absent string: `undefined`, `null` and the
empty string are falsy. -/
def jsTruthyS : Option String → Bool
  | none => false
  | some s => s ≠ ""

/-- `video.variants && video.variants[video.variants.length - 1]?.url`:
the url of the last variant, `none` if `variants` is absent or empty. -/
def lastVariantUrl (v : TwVideo) : Option String :=
  match v.variants with
  | none => none
  | some vs =>
    match vs.getLast? with
    | none => none
    | some lv => lv.url

/-- The `for (const media of tweet.media.all)` loop: url of the first item
whose `type` is `'video'` and whose `url` is truthy. -/
def findVideoInAll : List TwMediaItem → Option String
  | [] => none
  | m :: rest =>
    if m.type == "video" && jsTruthyS m.url then m.url else findVideoInAll rest

/-- The raw `videoUrl` value assigned by the branch above (`none` models the
initial `null` / an `undefined` result). -/
def selectVideoUrl (media : Option TwMedia) : Option String :=
  match media with
  | none => none
  | some m =>
    match m.videos with
    | some (v :: _) => if jsTruthyS v.url then v.url else lastVariantUrl v
    | _ =>
      match m.all with
      | some (i :: rest) => findVideoInAll (i :: rest)
      | _ => none

def noVideoMsg : String :=
  "No video found in this tweet. Make sure the tweet contains a video."

/-- The `if (!videoUrl) throw` guard: a falsy selection raises the
no-video error, otherwise the url is passed on to video analysis. -/
def twitterVideoOutcome (media : Option TwMedia) : Except String String :=
  match selectVideoUrl media with
  | some u => if u == "" then .error noVideoMsg else .ok u
  | none => .error noVideoMsg

/-- First step of `processTwitterVideo`: extract the tweet id or throw
`Could not extract tweet ID from URL`. -/
inductive TwStep where
  | tweetIdError
  | fetchTweet (id : List Char)
  deriving DecidableEq, Repr

def processTwitterVideoStep1 (url : List Char) : TwStep :=
  match extractTweetId url with
  | none => .tweetIdError
  | some id => .fetchTweet id

/-! ### Metadata Fetcher (webServer.js, `getVideoDetails`)

```js
async function getVideoDetails(videoId, apiKey) {
  try {
    const response = await axios.get(url);
    if (response.data.items && response.data.items.length > 0) {
      return response.data.items[0];
    }
    return null;
  } catch (error) {
    console.error(...);
    return null;
  }
}
```
The argument models the upstream lookup: `.error status` is a failed
(network/auth) request, `.ok resp` a 2xx response body. -/

structure VideoItem where
  snippetTitle : String
  deriving DecidableEq, Repr

structure YtVideosResponse where
  items : Option (List VideoItem)
  deriving DecidableEq, Repr

def getVideoDetails (r : Except Nat YtVideosResponse) : Option VideoItem :=
  match r with
  | .error _ => none
  | .ok resp =>
    match resp.items with
    | some (item :: _) => some item
    | _ => none

def videoNotFoundMsg : String :=
  "Video not found or inaccessible. Please check the video ID."

/-- The caller in the `/summarize` handler: a `null` result is reported with
the 404 not-found message. -/
def videoDetailsOutcome (r : Except Nat YtVideosResponse) : Except String VideoItem :=
  match getVideoDetails r with
  | none => .error videoNotFoundMsg
  | some item => .ok item

/-! ### Summarizer, multimodal (Gemini) backend
(webServer.js, `summarizeWithGemini` and `analyzeVideoWithGemini`) -/

structure GeminiPart where
  text : Option String
  deriving DecidableEq, Repr

structure GeminiContent where
  parts : List GeminiPart
  deriving DecidableEq, Repr

structure GeminiCandidate where
  finishReason : Option String
  content : Option GeminiContent
  deriving DecidableEq, Repr

structure GeminiResponse where
  candidates : List GeminiCandidate
  deriving DecidableEq, Repr

inductive GemErr where
  | invalidApiKey
  | modelUnavailable
  | responseTruncated
  | incompleteResponse
  | unexpectedFormat
  | apiError (status : Nat)
  | contentTooLarge
  deriving DecidableEq, Repr

/-- Response handling of `summarizeWithGemini` (transcript-text path):
```js
if (data.candidates && data.candidates[0]) {
  const candidate = data.candidates[0];
  if (candidate.finishReason === 'MAX_TOKENS') { throw ... }        // ResponseTruncated
  if (candidate.content && candidate.content.parts && candidate.content.parts[0]) {
    return candidate.content.parts[0].text;
  } else { throw ... }                                              // incomplete response
} else { throw ... }                                                // unexpected format
```
The returned value is `parts[0].text`, which may itself be absent. -/
def geminiExtractText (data : GeminiResponse) : Except GemErr (Option String) :=
  match data.candidates.head? with
  | none => .error .unexpectedFormat
  | some cand =>
    if cand.finishReason == some "MAX_TOKENS" then .error .responseTruncated
    else
      match cand.content with
      | none => .error .incompleteResponse
      | some content =>
        match content.parts.head? with
        | none => .error .incompleteResponse
        | some part => .ok part.text

/-- Response handling of `analyzeVideoWithGemini` (video-bytes path):
```js
if (data.candidates && data.candidates[0]?.content?.parts?.[0]?.text) {
  return data.candidates[0].content.parts[0].text;
} else { throw new Error('Unexpected Gemini response format'); }
```
The truthiness test on `.text` makes an empty string fall to the error
branch; no `finishReason` check is performed on this path. -/
def analyzeExtractText (data : GeminiResponse) : Except GemErr String :=
  match data.candidates.head? with
  | none => .error .unexpectedFormat
  | some cand =>
    match cand.content with
    | none => .error .unexpectedFormat
    | some content =>
      match content.parts.head? with
      | none => .error .unexpectedFormat
      | some part =>
        match part.text with
        | none => .error .unexpectedFormat
        | some t => if t == "" then .error .unexpectedFormat else .ok t

/-- External requests issued by the two Gemini functions, in order. -/
inductive ExtCall where
  | listModels
  | downloadVideo
  | generate (model : String)
  deriving DecidableEq, Repr

/-- The `https://.../v1beta/models?key=` listing call result:
`ok` is `response.ok`, `models` the `models` array of the body. -/
structure ModelsListing where
  ok : Bool
  models : Option (List String)
  deriving DecidableEq, Repr

/-- `m.name.replace('models/', '')` (first occurrence only). -/
def stripModelsPrefix (name : String) : String :=
  String.mk (replaceFirst ("models/".data) [] name.data)

def requiredModel : String := "gemini-2.5-flash"

/-- `summarizeWithGemini` as a trace of external calls plus its outcome:
it lists models first; a non-ok listing is `Invalid Gemini API key`;
`gemini-2.5-flash` must appear among the listed names (stripped of the
`models/` prefix) or the model-unavailable error is raised; only then is the
generation request sent, always for `gemini-2.5-flash`. -/
def summarizeWithGemini (listing : ModelsListing)
    (genResult : Except Nat GeminiResponse) :
    List ExtCall × Except GemErr (Option String) :=
  if listing.ok then
    if ((listing.models.getD []).map stripModelsPrefix).contains requiredModel then
      ([.listModels, .generate requiredModel],
        match genResult with
        | .error status => .error (.apiError status)
        | .ok data => geminiExtractText data)
    else
      ([.listModels], .error .modelUnavailable)
  else ([.listModels], .error .invalidApiKey)

/-- The axios download cap in `analyzeVideoWithGemini`:
`maxContentLength: 15 * 1024 * 1024`. -/
def maxContentLength : Nat := 15 * 1024 * 1024

/-- `analyzeVideoWithGemini` as a trace of external calls plus its outcome:
the video body is downloaded (axios aborts when the body exceeds
`maxContentLength`, which the catch block maps to the too-large error);
otherwise the generation request for `gemini-2.5-flash` is sent directly —
no model listing happens on this path. `videoLen` is the byte length of the
video body, `genResult` the generation response. -/
def analyzeVideoWithGemini (videoLen : Nat)
    (genResult : Except Nat GeminiResponse) :
    List ExtCall × Except GemErr String :=
  if maxContentLength < videoLen then ([.downloadVideo], .error .contentTooLarge)
  else
    ([.downloadVideo, .generate requiredModel],
      match genResult with
      | .error status => .error (.apiError status)
      | .ok data => analyzeExtractText data)

/-! ### POST /summarize handler (webServer.js)

Key selection (`env || body`), provider defaulting, the Twitter guard, the
field validations, and the provider/key pair actually passed to
`summarizeTranscript`.  Environment variables and body fields are strings
with `""` for absent, except `aiProvider`, where JS distinguishes a missing
field (`undefined`, which triggers the default parameter of
`summarizeTranscript`) from an empty string. -/

structure EnvKeys where
  youtubeApiKey : String
  openaiApiKey : String
  geminiApiKey : String
  deriving DecidableEq, Repr

structure SummarizeBody where
  youtubeKey : String
  openaiKey : String
  geminiKey : String
  aiProvider : Option String
  videoId : String
  videoUrl : String
  deriving DecidableEq, Repr

/-- JS `a || b` on strings (empty string is falsy). -/
def jsOrS (a b : String) : String := if a == "" then b else a

/-- The backend `summarizeTranscript` actually invokes, with the key it is
given. -/
inductive Backend where
  | openaiBackend (key : String)
  | geminiBackend (key : String)
  | unsupported (provider : String)
  deriving DecidableEq, Repr

/-- `summarizeTranscript(transcript, videoTitle, aiProvider = 'openai', apiKey)`:
the default parameter applies only when the argument is `undefined`. -/
def summarizeTranscriptDispatch (provider : Option String) (apiKey : String) :
    Backend :=
  let p := provider.getD "openai"
  if p == "openai" then .openaiBackend apiKey
  else if p == "gemini" then .geminiBackend apiKey
  else .unsupported p

inductive SummarizeOutcome where
  | twitterKeyMissing
  | twitterProcess (url key : String)
  | missingFields
  | openaiKeyRequired
  | geminiKeyRequired
  | invalidProvider
  | youtubePipeline (finalAiProvider : String) (dispatch : Backend)
  deriving DecidableEq, Repr

/-- The control flow of the POST /summarize handler up to (and including)
the provider dispatch of the summarization step.  Mirrors:
```js
const finalYouTubeKey = hasEnvYouTubeKey || youtubeKey;  // similarly OpenAI, Gemini
const finalAiProvider = aiProvider || (finalGeminiKey ? 'gemini' : 'openai');
const inputUrl = videoUrl || videoId;
if (isTwitterUrl(inputUrl)) { if (!finalGeminiKey) return 400; ... processTwitterVideo ... }
if (!finalYouTubeKey || !videoId) return 400;
if (finalAiProvider === 'openai' && !finalOpenAIKey) return 400;
if (finalAiProvider === 'gemini' && !finalGeminiKey) return 400;
if (!['openai','gemini'].includes(finalAiProvider)) return 400;
...
const apiKey = aiProvider === 'openai' ? finalOpenAIKey : finalGeminiKey;
const summary = await summarizeTranscript(transcript, videoTitle, aiProvider, apiKey);
```
Note that the last two lines read the raw `aiProvider` body field, not
`finalAiProvider`. -/
def handleSummarize (env : EnvKeys) (req : SummarizeBody) : SummarizeOutcome :=
  let finalYouTubeKey := jsOrS env.youtubeApiKey req.youtubeKey
  let finalOpenAIKey := jsOrS env.openaiApiKey req.openaiKey
  let finalGeminiKey := jsOrS env.geminiApiKey req.geminiKey
  let defaultProvider := if finalGeminiKey == "" then "openai" else "gemini"
  let finalAiProvider :=
    match req.aiProvider with
    | some p => if p == "" then defaultProvider else p
    | none => defaultProvider
  let inputUrl := jsOrS req.videoUrl req.videoId
  if isTwitterUrl inputUrl.data then
    if finalGeminiKey == "" then .twitterKeyMissing
    else .twitterProcess inputUrl finalGeminiKey
  else if finalYouTubeKey == "" || req.videoId == "" then .missingFields
  else if finalAiProvider == "openai" && finalOpenAIKey == "" then .openaiKeyRequired
  else if finalAiProvider == "gemini" && finalGeminiKey == "" then .geminiKeyRequired
  else if !(finalAiProvider == "openai" || finalAiProvider == "gemini") then
    .invalidProvider
  else
    let apiKey := if req.aiProvider == some "openai" then finalOpenAIKey else finalGeminiKey
    .youtubePipeline finalAiProvider (summarizeTranscriptDispatch req.aiProvider apiKey)

/-! ### CLI pipeline (src/unnamed/part_000 and part_001, `run`)

```js
const transcript = await fetchTranscript(videoId);
if (transcript) {
  fs.writeFileSync(transcriptFilename, transcript);
  const summary = await summarizeTranscript(transcript, videoTitle);
  if (summary) { fs.writeFileSync(summaryFilename, ...); ... }
  else { console.error('Failed to generate summary.'); }
}
```
`RunEnv` carries the results of the three external steps (`null` on
failure, as in the source); `runWrites` is the list of files the run
persists, in order. -/

structure RunEnv where
  videoDetails : Option VideoItem
  transcript : Option String
  summary : Option String
  deriving DecidableEq, Repr

inductive RunFile where
  | transcriptFile (videoId content : String)
  | summaryFile (videoId : String)
  deriving DecidableEq, Repr

def runWrites (videoId : String) (env : RunEnv) : List RunFile :=
  match env.videoDetails with
  | none => []
  | some _ =>
    match env.transcript with
    | none => []
    | some t =>
      match env.summary with
      | none => [.transcriptFile videoId t]
      | some _ => [.transcriptFile videoId t, .summaryFile videoId]

/-! ### Concrete example values used by the claim theorems -/

/-- A generation response whose first candidate finished with `MAX_TOKENS`
yet still carries a text part — the shape Gemini produces when the output
was cut off mid-generation. -/
def respMaxTokens : GeminiResponse :=
  ⟨[⟨some "MAX_TOKENS", some ⟨[⟨some "Partial summary"⟩]⟩⟩]⟩

/-- A well-formed successful generation response. -/
def respOkSummary : GeminiResponse :=
  ⟨[⟨none, some ⟨[⟨some "Summary text"⟩]⟩⟩]⟩

/-- An environment with no configured keys. -/
def envNone : EnvKeys := ⟨"", "", ""⟩

/-- A /summarize request that supplies a YouTube key, a Gemini key and a
video id but leaves the AI provider unspecified. -/
def reqDefaultGemini : SummarizeBody :=
  ⟨"yt", "", "gk", none, "vid123", ""⟩

/-- A /summarize request for a Twitter/X status URL with no Gemini key
anywhere. -/
def reqTwitterNoGeminiKey : SummarizeBody :=
  ⟨"yt", "ok", "", none, "", "https://x.com/u/status/12345"⟩

/-- A tweet media object whose `videos` array is nonempty but yields no url
(no `url` field, empty `variants`), while `media.all` contains a video item
with a url. -/
def mediaVideosBlocking : TwMedia :=
  ⟨some [⟨none, some []⟩], some [⟨"video", some "https://v.example/v.mp4"⟩]⟩

/-! ### Helper lemmas -/

theorem containsStr_iff (pat : List Char) :
    ∀ s : List Char, containsStr pat s = true ↔ ∃ a b, s = a ++ pat ++ b := by
  intro s
  induction s with
  | nil =>
    simp only [containsStr, List.isEmpty_iff]
    constructor
    · rintro rfl
      exact ⟨[], [], rfl⟩
    · rintro ⟨a, b, hab⟩
      rcases a with _ | ⟨x, xs⟩
      · rcases pat with _ | ⟨y, ys⟩
        · rfl
        · simp at hab
      · simp at hab
  | cons c rest ih =>
    simp only [containsStr, Bool.or_eq_true, List.isPrefixOf_iff_prefix, ih]
    constructor
    · rintro (⟨t, ht⟩ | ⟨a, b, hab⟩)
      · exact ⟨[], t, by simpa using ht.symm⟩
      · exact ⟨c :: a, b, by simp [hab]⟩
    · rintro ⟨a, b, hab⟩
      cases a with
      | nil =>
        left
        exact ⟨b, by simpa using hab.symm⟩
      | cons a0 as =>
        right
        refine ⟨as, b, ?_⟩
        exact (List.cons_eq_cons.mp (by simpa using hab)).2


theorem matchStatus_eq_some {s ds : List Char} (h : matchStatus s = some ds) :
    ∃ c post, s = statusLit ++ c :: post ∧ c.isDigit = true
      ∧ ds = (c :: post).takeWhile Char.isDigit := by
  unfold matchStatus at h
  by_cases hp : statusLit.isPrefixOf s
  · rw [if_pos hp] at h
    rcases List.isPrefixOf_iff_prefix.mp hp with ⟨t, ht⟩
    have hdrop : s.drop statusLit.length = t := by
      rw [← ht]; exact List.drop_left _ _
    rw [hdrop] at h
    cases t with
    | nil => simp at h
    | cons c post =>
      by_cases hd : c.isDigit
      · refine ⟨c, post, ht.symm, hd, ?_⟩
        rw [List.takeWhile_cons_of_pos hd] at h ⊢
        have h' : some (c :: post.takeWhile Char.isDigit) = some ds := h
        exact (Option.some.inj h').symm
      · rw [List.takeWhile_cons_of_neg hd] at h
        simp at h
  · rw [if_neg hp] at h
    simp at h

theorem matchStatus_of_decomp (c : Char) (post : List Char)
    (hd : c.isDigit = true) :
    matchStatus (statusLit ++ c :: post) = some (c :: (post.takeWhile Char.isDigit)) := by
  unfold matchStatus
  rw [if_pos (List.isPrefixOf_iff_prefix.mpr ⟨c :: post, rfl⟩)]
  rw [List.drop_left, List.takeWhile_cons_of_pos hd]

theorem extractTweetId_isSome_of_decomp :
    ∀ (pre : List Char) (s : List Char) (c : Char) (post : List Char),
      s = pre ++ statusLit ++ c :: post → c.isDigit = true →
      (extractTweetId s).isSome = true := by
  intro pre
  induction pre with
  | nil =>
    intro s c post hs hd
    subst hs
    simp only [List.nil_append]
    show (extractTweetId (('s' : Char) :: ("tatus/".data ++ c :: post))).isSome = true
    unfold extractTweetId
    rw [show (('s' : Char) :: ("tatus/".data ++ c :: post)) = statusLit ++ c :: post from rfl]
    rw [matchStatus_of_decomp c post hd]
    rfl
  | cons a pre ih =>
    intro s c post hs hd
    subst hs
    show (extractTweetId (a :: (pre ++ statusLit ++ c :: post))).isSome = true
    unfold extractTweetId
    cases hm : matchStatus (a :: (pre ++ statusLit ++ c :: post)) with
    | some ds => simp
    | none => exact ih _ c post rfl hd

theorem extractTweetId_eq_some {s ds : List Char}
    (h : extractTweetId s = some ds) :
    ∃ pre c post, s = pre ++ statusLit ++ c :: post ∧ c.isDigit = true
      ∧ ds ≠ [] ∧ ds.all Char.isDigit = true := by
  induction s with
  | nil => simp [extractTweetId] at h
  | cons c0 rest ih =>
    unfold extractTweetId at h
    cases hm : matchStatus (c0 :: rest) with
    | some ds0 =>
      rw [hm] at h
      rcases matchStatus_eq_some hm with ⟨c, post, hs, hd, hds⟩
      have hds' : ds = (c :: post).takeWhile Char.isDigit := by
        cases h; exact hds
      refine ⟨[], c, post, by simpa using hs, hd, ?_, ?_⟩
      · rw [hds', List.takeWhile_cons_of_pos hd]; simp
      · rw [hds']; exact List.all_takeWhile
    | none =>
      rw [hm] at h
      rcases ih h with ⟨pre, c, post, hs, hd, hne, hall⟩
      exact ⟨c0 :: pre, c, post, by simp [hs], hd, hne, hall⟩

theorem extractTweetId_isSome_iff (s : List Char) :
    (extractTweetId s).isSome = true
      ↔ ∃ pre c post, s = pre ++ statusLit ++ c :: post ∧ c.isDigit = true := by
  constructor
  · intro h
    rcases Option.isSome_iff_exists.mp h with ⟨ds, hds⟩
    rcases extractTweetId_eq_some hds with ⟨pre, c, post, hs, hd, _, _⟩
    exact ⟨pre, c, post, hs, hd⟩
  · rintro ⟨pre, c, post, hs, hd⟩
    exact extractTweetId_isSome_of_decomp pre s c post hs hd

/-! ### Claim theorems -/

/-- Claim C1, counterexample: the video-bytes path (`analyzeVideoWithGemini`)
performs no `finishReason` check — a response whose first candidate finished
with `MAX_TOKENS` yet still carries a text part is returned as a successful
summary rather than raising an error, contradicting the claim for that
path. -/
theorem maxTokensVideoPathReturnsPartialText :
    respMaxTokens.candidates.map (fun c => c.finishReason) = [some "MAX_TOKENS"]
      ∧ analyzeExtractText respMaxTokens = Except.ok "Partial summary" :=
  ⟨rfl, rfl⟩

/-- Claim C1, amended: only the transcript-text path treats `MAX_TOKENS` as
fatal.  Whenever the first candidate of a generation response has
`finishReason` equal to `MAX_TOKENS`, `summarizeWithGemini`'s response
handling (`geminiExtractText`) raises the truncation error and never returns
the candidate's partial text; the video-bytes path does not check
`finishReason` at all. -/
theorem maxTokensTextPathIsTruncationError
    (resp : GeminiResponse) (cand : GeminiCandidate)
    (hhead : resp.candidates.head? = some cand)
    (hfin : cand.finishReason = some "MAX_TOKENS") :
    geminiExtractText resp = Except.error GemErr.responseTruncated := by
  unfold geminiExtractText
  rw [hhead]
  simp [hfin]

theorem maxTokensTextPathIsTruncationErrorWitness :
    geminiExtractText respMaxTokens = Except.error GemErr.responseTruncated :=
  maxTokensTextPathIsTruncationError respMaxTokens
    ⟨some "MAX_TOKENS", some ⟨[⟨some "Partial summary"⟩]⟩⟩ rfl rfl

/-- Claim C2, code-bug evidence: with a Gemini key present and no provider
specified, the handler's validation selects `gemini` as `finalAiProvider`,
but the summarization call reads the raw `aiProvider` body field, so
`summarizeTranscript`'s default parameter dispatches to the OpenAI backend —
with the Gemini key as its API key.  The Twitter half of the claim holds: a
Twitter URL without a Gemini key is rejected before any processing. -/
theorem providerDefaultDispatchMismatch :
    handleSummarize envNone reqDefaultGemini
        = SummarizeOutcome.youtubePipeline "gemini" (Backend.openaiBackend "gk")
      ∧ Backend.openaiBackend "gk" ≠ Backend.geminiBackend "gk"
      ∧ handleSummarize envNone reqTwitterNoGeminiKey
          = SummarizeOutcome.twitterKeyMissing :=
  ⟨rfl, by decide, rfl⟩

/-- Claim C3, counterexample: `getVideoDetails` catches every lookup failure
and returns `null`, exactly as for a zero-items response, so an auth failure
(HTTP 401) is reported through the same not-found response instead of
propagating as a distinct metadata-fetch error. -/
theorem metadataFetchFailureReportedAsNotFound :
    getVideoDetails (Except.error 401) = none
      ∧ videoDetailsOutcome (Except.error 401) = Except.error videoNotFoundMsg
      ∧ videoDetailsOutcome (Except.ok ⟨some []⟩) = Except.error videoNotFoundMsg :=
  ⟨rfl, rfl, rfl⟩

/-- Claim C3, amended: `getVideoDetails` never throws — it yields an item
exactly when the lookup succeeded with a nonempty `items` array; zero items
and network/auth failures alike yield `none`, which the handler reports with
the single not-found message. -/
theorem getVideoDetailsCharacterization :
    (∀ r : Except Nat YtVideosResponse,
        (getVideoDetails r).isSome = true
          ↔ ∃ resp item rest, r = Except.ok resp ∧ resp.items = some (item :: rest))
      ∧ (∀ status : Nat,
          videoDetailsOutcome (Except.error status) = Except.error videoNotFoundMsg) := by
  constructor
  · intro r
    constructor
    · intro h
      cases r with
      | error e => simp [getVideoDetails] at h
      | ok resp =>
        cases hresp : resp.items with
        | none => simp [getVideoDetails, hresp] at h
        | some l =>
          cases l with
          | nil => simp [getVideoDetails, hresp] at h
          | cons item rest => exact ⟨resp, item, rest, rfl, hresp⟩
    · rintro ⟨resp, item, rest, rfl, hitems⟩
      simp [getVideoDetails, hitems]
  · intro status
    rfl

theorem getVideoDetailsCharacterizationWitness :
    (getVideoDetails (Except.ok ⟨some [⟨"Title"⟩]⟩)).isSome = true :=
  (getVideoDetailsCharacterization.1 (Except.ok ⟨some [⟨"Title"⟩]⟩)).mpr
    ⟨⟨some [⟨"Title"⟩]⟩, ⟨"Title"⟩, [], rfl, rfl⟩

/-- Claim C4, counterexample: in the CLI `run`, the transcript file is
written as soon as the transcript is fetched; when summarization then fails
the transcript file has already been persisted, contradicting the claim that
no partial artifact is written. -/
theorem transcriptFilePersistedOnSummaryFailure :
    runWrites "abc" ⟨some ⟨"T"⟩, some "hello", none⟩
        = [RunFile.transcriptFile "abc" "hello"]
      ∧ [RunFile.transcriptFile "abc" "hello"] ≠ ([] : List RunFile) :=
  ⟨rfl, by decide⟩

/-- Claim C4, amended: when the transcript is fetched and summarization
fails, the run persists exactly the transcript file (written before the
summarization attempt); only the summary file is withheld. -/
theorem runPersistsTranscriptBeforeSummary
    (videoId : String) (env : RunEnv) (item : VideoItem) (t : String)
    (hdet : env.videoDetails = some item) (htr : env.transcript = some t)
    (hsum : env.summary = none) :
    runWrites videoId env = [RunFile.transcriptFile videoId t] := by
  simp [runWrites, hdet, htr, hsum]

theorem runPersistsTranscriptBeforeSummaryWitness :
    runWrites "xyz" ⟨some ⟨"Title"⟩, some "words", none⟩
      = [RunFile.transcriptFile "xyz" "words"] :=
  runPersistsTranscriptBeforeSummary "xyz" ⟨some ⟨"Title"⟩, some "words", none⟩
    ⟨"Title"⟩ "words" rfl rfl rfl

/-- Claim C5, counterexample: the video-bytes path sends its generation
request directly — its call trace contains a generation call for
`gemini-2.5-flash` but no model-listing call, so no key validation or
model-availability check precedes generation on that path. -/
theorem videoPathGeneratesWithoutModelListing :
    (analyzeVideoWithGemini 1000 (Except.ok respOkSummary)).fst
        = [ExtCall.downloadVideo, ExtCall.generate "gemini-2.5-flash"]
      ∧ ExtCall.listModels ∉ (analyzeVideoWithGemini 1000 (Except.ok respOkSummary)).fst
      ∧ (analyzeVideoWithGemini 1000 (Except.ok respOkSummary)).snd
          = Except.ok "Summary text" :=
  ⟨rfl, by decide, rfl⟩

/-- Claim C5, amended: only the transcript-text path performs the preflight:
`summarizeWithGemini` always lists models first, fails with the invalid-key
error when the listing call is unsuccessful, fails with the
model-unavailable error when `gemini-2.5-flash` is absent from the (prefix-
stripped) listing, and any generation call it makes is for exactly
`gemini-2.5-flash` after a successful listing that contains it. -/
theorem textPathPreflightPolicy
    (listing : ModelsListing) (genResult : Except Nat GeminiResponse) :
    ((summarizeWithGemini listing genResult).fst.head? = some ExtCall.listModels)
      ∧ (listing.ok = false →
          summarizeWithGemini listing genResult
            = ([ExtCall.listModels], Except.error GemErr.invalidApiKey))
      ∧ (listing.ok = true →
          ((listing.models.getD []).map stripModelsPrefix).contains requiredModel = false →
          summarizeWithGemini listing genResult
            = ([ExtCall.listModels], Except.error GemErr.modelUnavailable))
      ∧ (∀ m, ExtCall.generate m ∈ (summarizeWithGemini listing genResult).fst →
          m = requiredModel ∧ listing.ok = true
            ∧ ((listing.models.getD []).map stripModelsPrefix).contains requiredModel
                = true) := by
  cases hok : listing.ok with
  | false =>
    have heq : summarizeWithGemini listing genResult
        = ([ExtCall.listModels], Except.error GemErr.invalidApiKey) := by
      unfold summarizeWithGemini
      rw [hok]
      rfl
    refine ⟨?_, ?_, ?_, ?_⟩
    · rw [heq]
      rfl
    · intro _
      exact heq
    · intro h _
      exact Bool.noConfusion h
    · intro m hm
      rw [heq] at hm
      simp at hm
  | true =>
    cases hc : ((listing.models.getD []).map stripModelsPrefix).contains requiredModel with
    | false =>
      have heq : summarizeWithGemini listing genResult
          = ([ExtCall.listModels], Except.error GemErr.modelUnavailable) := by
        unfold summarizeWithGemini
        rw [hok, hc]
        rfl
      refine ⟨?_, ?_, ?_, ?_⟩
      · rw [heq]
        rfl
      · intro h
        exact Bool.noConfusion h
      · intro _ _
        exact heq
      · intro m hm
        rw [heq] at hm
        simp at hm
    | true =>
      have heq : (summarizeWithGemini listing genResult).fst
          = [ExtCall.listModels, ExtCall.generate requiredModel] := by
        unfold summarizeWithGemini
        rw [hok, hc]
        rfl
      refine ⟨?_, ?_, ?_, ?_⟩
      · rw [heq]
        rfl
      · intro h
        exact Bool.noConfusion h
      · intro _ h
        exact Bool.noConfusion h
      · intro m hm
        rw [heq] at hm
        simp at hm
        exact ⟨hm, rfl, rfl⟩

theorem textPathPreflightPolicyWitness :
    summarizeWithGemini ⟨false, none⟩ (Except.ok respOkSummary)
      = ([ExtCall.listModels], Except.error GemErr.invalidApiKey) :=
  (textPathPreflightPolicy ⟨false, none⟩ (Except.ok respOkSummary)).2.1 rfl

/-- Claim C6: a Twitter video body exceeding the 15 MiB cap
(`maxContentLength`) makes `analyzeVideoWithGemini` fail with the
content-too-large error, and its call trace contains no generation call —
the Summarizer's generation endpoint is never invoked for that request. -/
theorem downloadCapAbortsBeforeGeneration
    (videoLen : Nat) (genResult : Except Nat GeminiResponse)
    (hbig : maxContentLength < videoLen) :
    analyzeVideoWithGemini videoLen genResult
        = ([ExtCall.downloadVideo], Except.error GemErr.contentTooLarge)
      ∧ ∀ m, ExtCall.generate m ∉ (analyzeVideoWithGemini videoLen genResult).fst := by
  have h1 : analyzeVideoWithGemini videoLen genResult
      = ([ExtCall.downloadVideo], Except.error GemErr.contentTooLarge) := by
    unfold analyzeVideoWithGemini
    rw [if_pos hbig]
  refine ⟨h1, ?_⟩
  intro m hm
  rw [h1] at hm
  simp at hm

theorem downloadCapAbortsBeforeGenerationWitness :
    analyzeVideoWithGemini (15 * 1024 * 1024 + 1) (Except.ok respOkSummary)
      = ([ExtCall.downloadVideo], Except.error GemErr.contentTooLarge) :=
  (downloadCapAbortsBeforeGeneration (15 * 1024 * 1024 + 1) (Except.ok respOkSummary)
    (by decide)).1

/-- Claim C7: `isTwitterUrl` returns true exactly when the input contains
`twitter.com` or `x.com` as a substring (the regex `twitter\.com|x\.com`)
and contains `status/` followed by at least one digit (the regex
`status\/\d+`); and on the spec's example URL the extracted id is `12345`. -/
theorem isTwitterUrlClassification :
    (∀ url : List Char,
        isTwitterUrl url = true
          ↔ ((∃ a b, url = a ++ ("twitter.com".data) ++ b)
                ∨ (∃ a b, url = a ++ ("x.com".data) ++ b))
            ∧ ∃ pre c post, url = pre ++ statusLit ++ c :: post ∧ c.isDigit = true)
      ∧ extractTweetId (("https://x.com/u/status/12345").data)
          = some (("12345").data) := by
  constructor
  · intro url
    unfold isTwitterUrl
    rw [Bool.and_eq_true, Bool.or_eq_true]
    rw [containsStr_iff, containsStr_iff, extractTweetId_isSome_iff]
  · rfl

theorem isTwitterUrlClassificationWitness :
    isTwitterUrl (("https://x.com/u/status/12345").data) = true :=
  (isTwitterUrlClassification.1 (("https://x.com/u/status/12345").data)).mpr
    ⟨Or.inr ⟨("https://").data, ("/u/status/12345").data, by decide⟩,
      ("https://x.com/u/").data, '1', ("2345").data, by decide, by decide⟩

/-- Claim C8, counterexample: the decoder does not rescan replacement text,
so the doubly-escaped input `&amp;amp;` decodes to the literal `&amp;`, not
to `&` as the claim's example asserts. -/
theorem captionDecodeDoubleEscapedAmpersand :
    captionDecode (("&amp;amp;").data) = ("&amp;").data
      ∧ ("&amp;").data ≠ ("&").data :=
  ⟨by decide, by decide⟩

/-- Claim C8, amended: the fallback decoder replaces each tag with a space,
unescapes `&#39; &quot; &amp; &lt; &gt;` in exactly that order, collapses
whitespace runs and trims.  The singly-escaped entities `&amp;` and
`&quot;test&quot;` decode to `&` and `"test"`; `&#39;` decodes to an
apostrophe; and the unescape order makes `&amp;lt;` doubly-unescape to `<`
while `&amp;amp;` stays `&amp;`. -/
theorem captionDecodeChainEvaluations :
    captionDecode (("&amp;").data) = ("&").data
      ∧ captionDecode (("&quot;test&quot;").data)
          = quotChar :: ("test").data ++ [quotChar]
      ∧ captionDecode ent39 = [aposChar]
      ∧ captionDecode (("&amp;lt;").data) = ("<").data
      ∧ captionDecode (("<p>hi</p> ok").data) = ("hi ok").data
      ∧ captionDecode (("  a  b ").data) = ("a b").data :=
  ⟨by decide, by decide, by decide, by decide, by decide, by decide⟩

/-- Claim C9, counterexample: when `media.videos` is nonempty but its first
entry yields no url (no `url`, empty `variants`), the extractor reports
no-video without ever consulting `media.all` — even though `media.all`
contains a video item with a url that the claim's precedence chain would
have selected. -/
theorem mediaAllIgnoredWhenVideosNonempty :
    twitterVideoOutcome (some mediaVideosBlocking) = Except.error noVideoMsg
      ∧ findVideoInAll [⟨"video", some "https://v.example/v.mp4"⟩]
          = some "https://v.example/v.mp4" :=
  ⟨rfl, rfl⟩

/-- Claim C9, amended: when `media.videos` is nonempty the selection is
`videos[0].url`, else the last `variants` entry's url of `videos[0]`, and
`media.all` is ignored entirely (the result does not depend on it);
`media.all` is scanned — for the first item whose type is `video` with a
truthy url — only when `media.videos` is empty or absent. -/
theorem selectVideoUrlPrecedence :
    (∀ (v : TwVideo) (vs : List TwVideo) (a₁ a₂ : Option (List TwMediaItem)),
        selectVideoUrl (some ⟨some (v :: vs), a₁⟩)
          = selectVideoUrl (some ⟨some (v :: vs), a₂⟩))
      ∧ (∀ (v : TwVideo) (vs : List TwVideo) (al : Option (List TwMediaItem))
            (u : String), v.url = some u → u ≠ "" →
          selectVideoUrl (some ⟨some (v :: vs), al⟩) = some u)
      ∧ (∀ (i : TwMediaItem) (rest : List TwMediaItem),
          selectVideoUrl (some ⟨none, some (i :: rest)⟩) = findVideoInAll (i :: rest))
      ∧ selectVideoUrl none = none := by
  refine ⟨?_, ?_, ?_, rfl⟩
  · intro v vs a₁ a₂
    simp [selectVideoUrl]
  · intro v vs al u hu hne
    simp [selectVideoUrl, jsTruthyS, hu, hne]
  · intro i rest
    rfl

theorem selectVideoUrlPrecedenceWitness :
    selectVideoUrl (some ⟨some [⟨some "https://a.example/a.mp4", none⟩], none⟩)
      = some "https://a.example/a.mp4" :=
  selectVideoUrlPrecedence.2.1 ⟨some "https://a.example/a.mp4", none⟩ [] none
    "https://a.example/a.mp4" rfl (by decide)

/-- Claim C10: any url classified as Twitter by `isTwitterUrl` yields a
non-null, nonempty, all-digit tweet id from `extractTweetId`; consequently
the `Could not extract tweet ID from URL` branch of `processTwitterVideo` is
unreachable for inputs routed through the handler's Twitter branch. -/
theorem twitterUrlAlwaysYieldsTweetId (url : List Char)
    (h : isTwitterUrl url = true) :
    ∃ ds, extractTweetId url = some ds ∧ ds ≠ [] ∧ ds.all Char.isDigit = true
      ∧ processTwitterVideoStep1 url = TwStep.fetchTweet ds := by
  unfold isTwitterUrl at h
  rw [Bool.and_eq_true] at h
  rcases Option.isSome_iff_exists.mp h.2 with ⟨ds, hds⟩
  rcases extractTweetId_eq_some hds with ⟨_, _, _, _, _, hne, hall⟩
  exact ⟨ds, hds, hne, hall, by simp [processTwitterVideoStep1, hds]⟩

theorem twitterUrlAlwaysYieldsTweetIdWitness :
    ∃ ds, extractTweetId (("https://x.com/u/status/12345").data) = some ds
      ∧ ds ≠ [] ∧ ds.all Char.isDigit = true
      ∧ processTwitterVideoStep1 (("https://x.com/u/status/12345").data)
          = TwStep.fetchTweet ds :=
  twitterUrlAlwaysYieldsTweetId (("https://x.com/u/status/12345").data) (by decide)

end YTSummarize
